import Mathlib

/-!
Shallow embedding of the DAU field-report backend (`src/main.py`).

The repository is a Flask service: citizens upload geotagged photos, an
external vision model classifies them, a taxonomy normalizer coerces the
model label into a closed six-code taxonomy, reports are persisted as
pending cases, and an admin approves (awarding one credit point to the
submitting user) or rejects (deletes) them.

This file models, faithfully to the Python source:
  * the Python string operations used by `_normalize_class`,
  * `_normalize_class` itself,
  * a JSON value type plus a model of `json.loads`,
  * `_parse_gemini_json_text` (fence strip, whole-string parse, brace-scan
    fallback, field-regex fallback),
  * the post-transport part of `analyze_image_with_gemini` (Python dynamic
    typing errors are modelled explicitly: operations that would raise
    `AttributeError` are partial),
  * the SQLite-backed state and the `upload_image`, `approve_case_api` and
    `reject_case_api` routes as pure state transformers.
-/

namespace DAU

/-! ### Python string primitives -/

/-- Python whitespace for `str.strip` / regex `\s` (ASCII fragment). -/
def pyWs (c : Char) : Bool :=
  c = ' ' || c = '\t' || c = '\n' || c = '\r' || c = '\x0b' || c = '\x0c'

/-- Python `str.strip()` with no arguments: drop whitespace at both ends. -/
def pyStrip (s : String) : String :=
  String.mk (((s.data.dropWhile pyWs).reverse.dropWhile pyWs).reverse)

/-- Test whether `pat` is a prefix of `cs` (character-wise). -/
def prefixMatches : List Char → List Char → Bool
  | [], _ => true
  | _ :: _, [] => false
  | p :: ps, c :: cs => p == c && prefixMatches ps cs

/-- Substring containment on char lists: Python `pat in hay`. -/
def containsSub (pat : List Char) : List Char → Bool
  | [] => prefixMatches pat []
  | c :: cs => prefixMatches pat (c :: cs) || containsSub pat cs

/-- Python `pat in hay` for strings. -/
def strContains (hay pat : String) : Bool :=
  containsSub pat.data hay.data

/-! ### `_normalize_class` (src/main.py lines 58-79) -/

/-- The closed taxonomy `ALLOWED_CLASSES` of src/main.py line 56. -/
def ALLOWED_CLASSES : List String :=
  ["DEF", "POL", "ENC", "ECO", "OTH", "Not_relevant"]

/-- The canonicalized local `v` of `_normalize_class`:
`label.strip().upper().replace("-", "_")` (ASCII case fold). -/
def canonLabel (label : String) : String :=
  String.mk (((pyStrip label).data.map Char.toUpper).map
    (fun c => if c = '-' then '_' else c))

/-- The decision chain of `_normalize_class` on the canonicalized local `v`:
exact code match, sentinel spellings, keyword containment, safe default
(src/main.py lines 63-79). -/
def classifyCanon (v : String) : String :=
  if v = "DEF" ∨ v = "POL" ∨ v = "ENC" ∨ v = "ECO" ∨ v = "OTH" then v
    else if v = "NOT_RELEVANT" ∨ v = "NOT_RELEVANT_" ∨ v = "NOT_RELEVANT__" then
      "Not_relevant"
    else if strContains v "DEFOR" ∨ strContains v "BURN" ∨ strContains v "LOG" then
      "DEF"
    else if strContains v "POLLUT" ∨ strContains v "WASTE" ∨ strContains v "SEWAGE" ∨
        strContains v "OIL" then
      "POL"
    else if strContains v "ENCROACH" ∨ strContains v "CONSTRUCT" ∨
        strContains v "LANDFILL" ∨ strContains v "AQUACULTURE" then
      "ENC"
    else if strContains v "ECO" ∨ strContains v "STRESS" ∨ strContains v "PEST" ∨
        strContains v "ALGA" ∨ strContains v "DIE" then
      "ECO"
    else if strContains v "OTHER" ∨ strContains v "UNSPECIFIED" ∨
        strContains v "POACH" ∨ strContains v "FIRE" then
      "OTH"
    else "Not_relevant"

/-- Function `_normalize_class(label)`: map free-form labels to one of the allowed
codes (src/main.py lines 58-79). -/
def _normalize_class (label : String) : String :=
  if label = "" then "Not_relevant"
  else classifyCanon (canonLabel label)

/-- The curated keyword set of the containment chain, in the order the
chain tests them (src/main.py lines 69-78). -/
def KEYWORDS : List String :=
  ["DEFOR", "BURN", "LOG", "POLLUT", "WASTE", "SEWAGE", "OIL",
   "ENCROACH", "CONSTRUCT", "LANDFILL", "AQUACULTURE",
   "ECO", "STRESS", "PEST", "ALGA", "DIE",
   "OTHER", "UNSPECIFIED", "POACH", "FIRE"]

/-- A canonicalized label is recognized when some branch of the decision
chain matches it: an exact substantive code, a sentinel spelling, or a
curated keyword contained in it.  Text whose canonical form is not
recognized is "unrecognized text" in the sense of the spec. -/
def recognizedCanon (v : String) : Bool :=
  decide (v = "DEF" ∨ v = "POL" ∨ v = "ENC" ∨ v = "ECO" ∨ v = "OTH") ||
  decide (v = "NOT_RELEVANT" ∨ v = "NOT_RELEVANT_" ∨ v = "NOT_RELEVANT__") ||
  KEYWORDS.any (fun k => strContains v k)

/-- Every branch of the decision chain returns one of the six codes. -/
lemma classifyCanon_mem_allowed (v : String) : classifyCanon v ∈ ALLOWED_CLASSES := by
  unfold classifyCanon ALLOWED_CLASSES
  split
  · rename_i h
    rcases h with h | h | h | h | h <;> simp [h]
  · split
    · simp
    · split
      · simp
      · split
        · simp
        · split
          · simp
          · split
            · simp
            · split
              · simp
              · simp

/-- Every output of `_normalize_class` is one of the six canonical codes. -/
lemma normalize_mem_allowed (s : String) : _normalize_class s ∈ ALLOWED_CLASSES := by
  unfold _normalize_class
  split
  · simp [ALLOWED_CLASSES]
  · exact classifyCanon_mem_allowed _

/-- An unrecognized canonical label falls through every branch of the
decision chain to the safe default. -/
lemma classifyCanon_unrecognized (v : String) (h : recognizedCanon v = false) :
    classifyCanon v = "Not_relevant" := by
  unfold classifyCanon
  split
  · rename_i hcond
    have htrue : recognizedCanon v = true := by
      unfold recognizedCanon
      rcases hcond with hc | hc | hc | hc | hc <;> simp [hc]
    simp [h] at htrue
  · split
    · rfl
    · split
      · rename_i hcond
        have htrue : recognizedCanon v = true := by
          unfold recognizedCanon
          rcases hcond with hc | hc | hc <;> simp [KEYWORDS, hc]
        simp [h] at htrue
      · split
        · rename_i hcond
          have htrue : recognizedCanon v = true := by
            unfold recognizedCanon
            rcases hcond with hc | hc | hc | hc <;> simp [KEYWORDS, hc]
          simp [h] at htrue
        · split
          · rename_i hcond
            have htrue : recognizedCanon v = true := by
              unfold recognizedCanon
              rcases hcond with hc | hc | hc | hc <;> simp [KEYWORDS, hc]
            simp [h] at htrue
          · split
            · rename_i hcond
              have htrue : recognizedCanon v = true := by
                unfold recognizedCanon
                rcases hcond with hc | hc | hc | hc | hc <;> simp [KEYWORDS, hc]
              simp [h] at htrue
            · split
              · rename_i hcond
                have htrue : recognizedCanon v = true := by
                  unfold recognizedCanon
                  rcases hcond with hc | hc | hc | hc <;> simp [KEYWORDS, hc]
                simp [h] at htrue
              · rfl

/-! ### JSON values and a model of `json.loads`

Python's `json.loads` returns an arbitrary Python value (dict, list, str,
number, bool, None) or raises.  `Json` is the value type; `jsonLoads` is a
strict RFC-8259 parser modelling `json.loads` (`Option.none` models the
raised `JSONDecodeError`).  Numeric tokens are kept as their raw source
text, which preserves everything the pipeline observes about them
(in particular Python truthiness).  Object fields keep source order; lookup
takes the last binding, matching dict construction order. -/

inductive Json where
  | null
  | bool (b : Bool)
  | num (raw : String)
  | str (s : String)
  | arr (items : List Json)
  | obj (fields : List (String × Json))

/-- JSON insignificant whitespace. -/
def isJWs (c : Char) : Bool :=
  c = ' ' || c = '\t' || c = '\n' || c = '\r'

/-- Hexadecimal digit value. -/
def hexVal (c : Char) : Option Nat :=
  if '0' ≤ c ∧ c ≤ '9' then some (c.toNat - '0'.toNat)
  else if 'a' ≤ c ∧ c ≤ 'f' then some (c.toNat - 'a'.toNat + 10)
  else if 'A' ≤ c ∧ c ≤ 'F' then some (c.toNat - 'A'.toNat + 10)
  else none

/-- Scan a JSON string body (opening quote already consumed): unescape and
return the decoded string together with the rest of the input.  Strict mode:
unescaped control characters and unknown escapes are rejected. -/
def jstrAux (acc : List Char) : List Char → Option (String × List Char)
  | [] => none
  | '"' :: rest => some (String.mk acc.reverse, rest)
  | '\\' :: '"' :: rest => jstrAux ('"' :: acc) rest
  | '\\' :: '\\' :: rest => jstrAux ('\\' :: acc) rest
  | '\\' :: '/' :: rest => jstrAux ('/' :: acc) rest
  | '\\' :: 'b' :: rest => jstrAux ('\x08' :: acc) rest
  | '\\' :: 'f' :: rest => jstrAux ('\x0c' :: acc) rest
  | '\\' :: 'n' :: rest => jstrAux ('\n' :: acc) rest
  | '\\' :: 'r' :: rest => jstrAux ('\r' :: acc) rest
  | '\\' :: 't' :: rest => jstrAux ('\t' :: acc) rest
  | '\\' :: 'u' :: h1 :: h2 :: h3 :: h4 :: rest =>
    match hexVal h1, hexVal h2, hexVal h3, hexVal h4 with
    | some a, some b, some c, some d =>
      let n := ((a * 16 + b) * 16 + c) * 16 + d
      if h : n.isValidChar then jstrAux (Char.ofNatAux n h :: acc) rest else none
    | _, _, _, _ => none
  | '\\' :: _ => none
  | c :: rest => if c.toNat < 32 then none else jstrAux (c :: acc) rest

/-- Fractional part of a JSON number token: `('.' digits+)?`. -/
def numFrac : List Char → Option (List Char × List Char)
  | '.' :: r =>
    let ds := r.takeWhile Char.isDigit
    if ds.isEmpty then none else some ('.' :: ds, r.dropWhile Char.isDigit)
  | cs => some ([], cs)

/-- Exponent part of a JSON number token: `([eE] [+-]? digits+)?`. -/
def numExp : List Char → Option (List Char × List Char)
  | c :: r =>
    if c = 'e' ∨ c = 'E' then
      let (sgn, r2) :=
        match r with
        | '+' :: t => (['+'], t)
        | '-' :: t => (['-'], t)
        | t => ([], t)
      let ds := r2.takeWhile Char.isDigit
      if ds.isEmpty then none
      else some (c :: (sgn ++ ds), r2.dropWhile Char.isDigit)
    else some ([], c :: r)
  | [] => some ([], [])

/-- A JSON number token starting at the current position:
`-? int frac? exp?` with no leading zeros in the integer part. -/
def parseNum (cs : List Char) : Option (Json × List Char) :=
  let (sgn, cs1) := match cs with | '-' :: r => (['-'], r) | r => ([], r)
  let ds := cs1.takeWhile Char.isDigit
  if ds.isEmpty then none
  else if 1 < ds.length ∧ ds.head? = some '0' then none
  else
    match numFrac (cs1.dropWhile Char.isDigit) with
    | none => none
    | some (fr, cs2) =>
      match numExp cs2 with
      | none => none
      | some (ex, cs3) => some (.num (String.mk (sgn ++ ds ++ fr ++ ex)), cs3)

/-- Parser request: a value, the members of an object after `{`, or the
items of an array after `[` (with the fields/items parsed so far). -/
inductive PReq where
  | val (cs : List Char)
  | fieldsOf (cs : List Char) (acc : List (String × Json))
  | itemsOf (cs : List Char) (acc : List Json)

/-- Recursive-descent JSON parser, fuel-indexed (each recursive call
consumes at least one input character, so fuel `length + 1` suffices). -/
def parseF (fuel : Nat) (req : PReq) : Option (Json × List Char) :=
  match fuel with
  | 0 => none
  | f + 1 =>
    match req with
    | .val cs =>
      match cs.dropWhile isJWs with
      | [] => none
      | '{' :: rest =>
        (match rest.dropWhile isJWs with
         | '}' :: r2 => some (.obj [], r2)
         | r2 => parseF f (.fieldsOf r2 []))
      | '[' :: rest =>
        (match rest.dropWhile isJWs with
         | ']' :: r2 => some (.arr [], r2)
         | r2 => parseF f (.itemsOf r2 []))
      | '"' :: rest => (jstrAux [] rest).map (fun p => (.str p.1, p.2))
      | 't' :: 'r' :: 'u' :: 'e' :: rest => some (.bool true, rest)
      | 'f' :: 'a' :: 'l' :: 's' :: 'e' :: rest => some (.bool false, rest)
      | 'n' :: 'u' :: 'l' :: 'l' :: rest => some (.null, rest)
      | other => parseNum other
    | .fieldsOf cs acc =>
      (match cs.dropWhile isJWs with
       | '"' :: rest =>
         (match jstrAux [] rest with
          | none => none
          | some (key, r2) =>
            (match r2.dropWhile isJWs with
             | ':' :: r3 =>
               (match parseF f (.val r3) with
                | none => none
                | some (v, r4) =>
                  (match r4.dropWhile isJWs with
                   | ',' :: r5 => parseF f (.fieldsOf r5 (acc ++ [(key, v)]))
                   | '}' :: r5 => some (.obj (acc ++ [(key, v)]), r5)
                   | _ => none))
             | _ => none))
       | _ => none)
    | .itemsOf cs acc =>
      (match parseF f (.val cs) with
       | none => none
       | some (v, r2) =>
         (match r2.dropWhile isJWs with
          | ',' :: r3 => parseF f (.itemsOf r3 (acc ++ [v]))
          | ']' :: r3 => some (.arr (acc ++ [v]), r3)
          | _ => none))

/-- Model of Python `json.loads`: parse one JSON value, allow surrounding
whitespace, reject trailing garbage.  `none` models `JSONDecodeError`. -/
def jsonLoads (s : String) : Option Json :=
  match parseF (s.length + 1) (.val s.data) with
  | some (v, rest) => if rest.dropWhile isJWs = [] then some v else none
  | none => none

/-! ### `_parse_gemini_json_text` (src/main.py lines 81-114)

The Python function strips the text, removes a leading/trailing code fence,
then tries `json.loads` on the whole string, then on the largest
largest brace-delimited block (regex `\x7b.*\x7d` with
DOTALL: first opening brace to last closing brace), and finally regex-scans
for the two fields.  Each regex used is deterministic at a given start
position, so the models below implement exact leftmost-match semantics. -/

/-- Case-insensitive (ASCII) prefix test, for the `re.IGNORECASE` flag. -/
def ciPrefixMatches : List Char → List Char → Bool
  | [], _ => true
  | _ :: _, [] => false
  | p :: ps, c :: cs => p.toLower == c.toLower && ciPrefixMatches ps cs

/-- The fence-stripping step: when the stripped text starts with three
backticks, apply `re.sub` with `^BTICKS(?:json)?\s*` (IGNORECASE) and then
`\s*BTICKS$` where BTICKS is the triple backtick (src/main.py lines 86-88).
The text was already stripped, so `$` is plain end-of-string here. -/
def stripFence (s : String) : String :=
  let cs := s.data
  if prefixMatches "```".data cs then
    let cs1 := cs.drop 3
    let cs2 := if ciPrefixMatches "json".data cs1 then cs1.drop 4 else cs1
    let cs3 := cs2.dropWhile pyWs
    let cs4 :=
      if prefixMatches "```".data cs3.reverse then
        ((cs3.reverse.drop 3).dropWhile pyWs).reverse
      else cs3
    String.mk cs4
  else s

/-- Index of the first occurrence of `c`, if any. -/
def firstIdx (c : Char) (cs : List Char) : Option Nat :=
  cs.findIdx? (· == c)

/-- Index of the last occurrence of `c`, if any. -/
def lastIdx (c : Char) (cs : List Char) : Option Nat :=
  match (cs.reverse.findIdx? (· == c)) with
  | some k => some (cs.length - 1 - k)
  | none => none

/-- Model of the brace regex search (DOTALL): greedy, so the match (when it
exists) runs from the first opening brace to the last closing brace after
it; with a brace pair present that is the first `\x7b` and the last `\x7d`
of the whole string. -/
def braceBlock (s : String) : Option String :=
  let cs := s.data
  match firstIdx '{' cs, lastIdx '}' cs with
  | some i, some j => if i < j then some (String.mk ((cs.drop i).take (j - i + 1))) else none
  | _, _ => none

/-- Attempt the `classification` regex
`"?classification"?\s*:\s*"([^"]+)"` (IGNORECASE) at the current position.
The optional quotes and greedy `\s*` are deterministic here: whenever the
optional branch consumes a quote, the non-consuming branch cannot match. -/
def classFieldAt (cs : List Char) : Option String :=
  let cs1 := match cs with | '"' :: r => r | r => r
  if ciPrefixMatches "classification".data cs1 then
    let cs2 := cs1.drop 14
    let cs3 := match cs2 with | '"' :: r => r | r => r
    match cs3.dropWhile pyWs with
    | ':' :: cs4 =>
      (match cs4.dropWhile pyWs with
       | '"' :: cs5 =>
         let val := cs5.takeWhile (· ≠ '"')
         if val.isEmpty then none
         else
           match cs5.dropWhile (· ≠ '"') with
           | '"' :: _ => some (String.mk val)
           | _ => none
       | _ => none)
    | _ => none
  else none

/-- Attempt the `reasoning` regex `"?reasoning"?\s*:\s*"(.*?)"`
(IGNORECASE, DOTALL) at the current position; the lazy group captures up to
the first closing quote and may be empty. -/
def reasonFieldAt (cs : List Char) : Option String :=
  let cs1 := match cs with | '"' :: r => r | r => r
  if ciPrefixMatches "reasoning".data cs1 then
    let cs2 := cs1.drop 9
    let cs3 := match cs2 with | '"' :: r => r | r => r
    match cs3.dropWhile pyWs with
    | ':' :: cs4 =>
      (match cs4.dropWhile pyWs with
       | '"' :: cs5 =>
         (match cs5.dropWhile (· ≠ '"') with
          | '"' :: _ => some (String.mk (cs5.takeWhile (· ≠ '"')))
          | _ => none)
       | _ => none)
    | _ => none
  else none

/-- Model of `re.search`: try the pattern at each position, leftmost match wins. -/
def searchField (att : List Char → Option String) : List Char → Option String
  | [] => att []
  | c :: cs =>
    match att (c :: cs) with
    | some v => some v
    | none => searchField att cs

/-- Model of the whitespace-squashing `re.sub`: collapse each whitespace run to one space. -/
def squashWs : List Char → List Char
  | [] => []
  | [c] => [if pyWs c then ' ' else c]
  | c1 :: c2 :: rest =>
    if pyWs c1 && pyWs c2 then squashWs (c2 :: rest)
    else (if pyWs c1 then ' ' else c1) :: squashWs (c2 :: rest)

/-- Stage 3 of the extractor: independently regex-extract the two fields
into a fresh dict (src/main.py lines 105-114). -/
def regexFields (s : String) : Json :=
  let cls := searchField classFieldAt s.data
  let rsn := searchField reasonFieldAt s.data
  let f1 := match cls with
    | some v => [("classification", Json.str v)]
    | none => []
  let f2 := match rsn with
    | some v => [("reasoning", Json.str (pyStrip (String.mk (squashWs v.data))))]
    | none => []
  Json.obj (f1 ++ f2)

/-- Stage 2 continuation: parse the brace-block candidate, falling back to
the field regexes on the original `s` (src/main.py lines 98-103). -/
def extractCand (s candidate : String) : Json :=
  match jsonLoads candidate with
  | some v => v
  | none => regexFields s

/-- Stages 2-3: brace-block scan, then the field regexes. -/
def extractStage23 (s : String) : Json :=
  match braceBlock s with
  | some candidate => extractCand s candidate
  | none => regexFields s

/-- The staged fallback chain of the extractor, applied to the local `s`
(the stripped, fence-stripped text): whole-string parse, then brace-block
parse, then the field regexes (src/main.py lines 90-114). -/
def extractStages (s : String) : Json :=
  match jsonLoads s with
  | some v => v
  | none => extractStage23 s

/-- Function `_parse_gemini_json_text(text)`: the tolerant extractor.  Returns the
Python value the function returns: the `json.loads` result when stage 1 or
stage 2 succeeds (which may be any JSON value for stage 1), otherwise the
regex-built dict.  Total; `none` never escapes (src/main.py lines 81-114). -/
def _parse_gemini_json_text (text : String) : Json :=
  extractStages (stripFence (pyStrip text))

/-! ### `analyze_image_with_gemini` (src/main.py lines 116-177)

The transport part (HTTP POST to the model endpoint) is a black box; the
outcome of the call is a parameter.  The post-transport processing of the
model text is modelled exactly, including the Python dynamic-typing
failures: `parsed.get` raises `AttributeError` when `parsed` is not a
dict, and `.strip()` raises when the value is not a string; both land in
the function's `except Exception` arm (line 176), which returns the
"Unexpected parsing error" dict.  The missing-API-key configuration branch
(line 121) is outside the modelled scope. -/

/-- Outcome of the outbound model call as seen by the service. -/
inductive ExternalReply where
  /-- `requests` raised a `RequestException` (unreachable, HTTP error
  status via `raise_for_status`, ...); carries the upstream detail used in
  the error message. -/
  | transportFailure (detail : String)
  /-- A 200 response whose body carried this model text. -/
  | modelText (t : String)

/-- The two error kinds the service returns (as dicts carrying an "error" key in Python). -/
inductive AnalyzeError where
  /-- "Failed to communicate with the vision API" (line 175). -/
  | externalServiceError (detail : String)
  /-- "Unexpected parsing error" (line 177). -/
  | internalProcessingError (detail : String)

/-- The non-error result dict of the service. -/
structure Analysis where
  classification : String
  reasoning : String

/-- Python truthiness of a parsed JSON value (`if not label`). -/
def pyTruthy : Json → Bool
  | .null => false
  | .bool b => b
  | .num raw =>
    (raw.data.takeWhile (fun c => c ≠ 'e' ∧ c ≠ 'E')).any
      (fun c => c.isDigit && c ≠ '0')
  | .str s => !(s = "")
  | .arr items => !items.isEmpty
  | .obj fields => !fields.isEmpty

/-- Last binding for a key in an object's field list (later duplicate keys
overwrite earlier ones when Python builds the dict). -/
def objLookup (fields : List (String × Json)) (key : String) : Option Json :=
  (fields.reverse.find? (fun p => p.1 == key)).map (fun p => p.2)

/-- Model of `parsed.get(key, dflt)`: `none` models the `AttributeError` raised when
`parsed` is not a dict. -/
def pyDictGet (parsed : Json) (key : String) (dflt : Json) : Option Json :=
  match parsed with
  | .obj fields => some ((objLookup fields key).getD dflt)
  | _ => none

/-- Behavior of `_normalize_class` applied to an arbitrary Python value, as in
`_normalize_class(parsed.get("classification", ""))`: a falsy value takes
the `if not label` branch; a truthy non-string raises `AttributeError` at
`label.strip()` (modelled as `none`). -/
def normalizeDynamic (label : Json) : Option String :=
  if pyTruthy label then
    match label with
    | .str s => some (_normalize_class s)
    | _ => none
  else some "Not_relevant"

/-- Model of `parsed.get("reasoning", "").strip() or "No reasoning provided."`:
`none` models the `AttributeError` on a non-string value. -/
def reasoningDynamic (value : Json) : Option String :=
  match value with
  | .str s => some (if pyStrip s = "" then "No reasoning provided." else pyStrip s)
  | _ => none

/-- Lines 166-170 applied to the extracted value: normalize + validate.
An `Except.error` is a dict with an `"error"` key in Python. -/
def analyzeParsed (parsed : Json) : Except AnalyzeError Analysis :=
  match pyDictGet parsed "classification" (.str "") with
  | none => .error (.internalProcessingError "AttributeError")
  | some rawCls =>
    match normalizeDynamic rawCls with
    | none => .error (.internalProcessingError "AttributeError")
    | some classification =>
      match pyDictGet parsed "reasoning" (.str "") with
      | none => .error (.internalProcessingError "AttributeError")
      | some rawRsn =>
        match reasoningDynamic rawRsn with
        | none => .error (.internalProcessingError "AttributeError")
        | some reasoning => .ok ⟨classification, reasoning⟩

/-- Lines 160-170 applied to the model text: extract, then process. -/
def analyzeModelText (modelText : String) : Except AnalyzeError Analysis :=
  analyzeParsed (_parse_gemini_json_text modelText)

/-- Function `analyze_image_with_gemini`, parameterized by the outcome of the
outbound call: a `RequestException` lands in the handler of line 172, any
other reply is processed by lines 160-170. -/
def analyze_image_with_gemini (reply : ExternalReply) : Except AnalyzeError Analysis :=
  match reply with
  | .transportFailure detail => .error (.externalServiceError detail)
  | .modelText t => analyzeModelText t

/-! ### Persistent state and the mutating routes

The SQLite database of src/main.py holds two tables, `users` and `images`
(lines 25-48).  A route handler is modelled as a pure state transformer
`DB -> Response x DB`; the single `connection.commit()` per handler means
each handler's writes are one atomic unit, which the transformer shape
captures by construction.  `credit_score` is a nullable INTEGER column,
modelled as `Option Int`. -/

/-- A row of the `users` table. -/
structure UserRow where
  userid : Nat
  name : String
  phone_number : String
  password : String
  occupation : Option String
  aadhar_verified : Int
  credit_score : Option Int

/-- A row of the `images` table (a report/case). -/
structure ImageRow where
  image_id : Nat
  geo_location : String
  image_data : List Nat
  llm_classification : String
  description : String
  is_useful : Int
  captured_by_userid : Nat

/-- The database: both tables plus the AUTOINCREMENT counter that yields
the next `image_id` (`cursor.lastrowid` after an insert). -/
structure DB where
  users : List UserRow
  images : List ImageRow
  nextImageId : Nat

/-- Query `SELECT ... FROM images WHERE image_id = ?` with `fetchone()`. -/
def findImage (db : DB) (iid : Nat) : Option ImageRow :=
  db.images.find? (fun r => r.image_id == iid)

/-- Query `SELECT ... FROM users WHERE userid = ?` with `fetchone()`. -/
def findUser (db : DB) (uid : Nat) : Option UserRow :=
  db.users.find? (fun u => u.userid == uid)

/-- Response of `POST /approve_case/<image_id>`. -/
inductive ApproveResp where
  /-- 200: "Case #<image_id> approved and 1 credit awarded to user
  #<userid>." -/
  | ok (image_id : Nat) (userid : Nat)
  /-- 404: "Case with ID <image_id> not found." -/
  | notFound (image_id : Nat)

/-- Route `approve_case_api` (src/main.py lines 335-375): look up the case's
submitter; 404 when the case id does not exist; otherwise set
`is_useful = 1` on the case and `credit_score = COALESCE(credit_score, 0) + 1`
on the submitter's row, committing both updates in one transaction. -/
def approve_case_api (iid : Nat) (db : DB) : ApproveResp × DB :=
  match findImage db iid with
  | none => (.notFound iid, db)
  | some row =>
    let uid := row.captured_by_userid
    let images2 := db.images.map
      (fun r => if r.image_id == iid then { r with is_useful := 1 } else r)
    let users2 := db.users.map
      (fun u =>
        if u.userid == uid then
          { u with credit_score := some (u.credit_score.getD 0 + 1) }
        else u)
    (.ok iid uid, { db with images := images2, users := users2 })

/-- Response of `DELETE /reject_case/<image_id>`. -/
inductive RejectResp where
  | ok (image_id : Nat)
  | notFound (image_id : Nat)

/-- Route `reject_case_api` (src/main.py lines 377-389): delete the row; 404 when
`cursor.rowcount` is zero (the delete of nothing was still committed). -/
def reject_case_api (iid : Nat) (db : DB) : RejectResp × DB :=
  let resp :=
    if db.images.any (fun r => r.image_id == iid) then RejectResp.ok iid
    else RejectResp.notFound iid
  (resp, { db with images := db.images.filter (fun r => !(r.image_id == iid)) })

/-- Response of `POST /upload_image`. -/
inductive UploadResp where
  /-- 400: missing image file, user_id or geo_location. -/
  | validationError
  /-- 500: `analyze_image_with_gemini` returned an error dict. -/
  | analysisError (e : AnalyzeError)
  /-- 200: "Image analyzed as not relevant and was not stored." -/
  | discarded (classification : String) (reasoning : String)
  /-- 201: "Image classified and stored successfully as a pending case!" -/
  | created (image_id : Nat) (classification : String) (reasoning : String)

/-- The `user_id` form field is a string; SQLite's INTEGER column affinity
stores its numeric value (non-numeric ids are outside the modelled domain). -/
def formUserId (uid : String) : Nat :=
  uid.toNat?.getD 0

/-- The `images` row inserted by `upload_image` (src/main.py lines 282-292):
pending (`is_useful = 0`), carrying the classification and reasoning. -/
def uploadRow (bytes : List Nat) (uid geo : String) (res : Analysis)
    (iid : Nat) : ImageRow :=
  { image_id := iid
    geo_location := geo
    image_data := bytes
    llm_classification := res.classification
    description := res.reasoning
    is_useful := 0
    captured_by_userid := formUserId uid }

/-- Route `upload_image` (src/main.py lines 236-306), parameterized by the
outcome of the outbound model call: validate the multipart fields, classify
the image, discard `Not_relevant` results with a 200 acknowledgment and no
insert, and otherwise insert a pending (`is_useful = 0`) case. -/
def upload_image (image : Option (List Nat)) (user_id : Option String)
    (geo_location : Option String) (reply : ExternalReply) (db : DB) :
    UploadResp × DB :=
  match image, user_id, geo_location with
  | some bytes, some uid, some geo =>
    if uid = "" ∨ geo = "" then (.validationError, db)
    else
      match analyze_image_with_gemini reply with
      | .error e => (.analysisError e, db)
      | .ok res =>
        if res.classification = "Not_relevant" then
          (.discarded res.classification res.reasoning, db)
        else
          (.created db.nextImageId res.classification res.reasoning,
           { db with
              images := db.images ++ [uploadRow bytes uid geo res db.nextImageId]
              nextImageId := db.nextImageId + 1 })
  | _, _, _ => (.validationError, db)

/-! ### Shape predicates used by the claims -/

/-- The extracted value is a string. -/
def isStrJson : Json → Bool
  | .str _ => true
  | _ => false

/-- The value is a partial record with at most the two optional string
fields `classification` and `reasoning` (the shape claimed for the
extractor's results). -/
def isPartialFieldRecord (j : Json) : Bool :=
  match j with
  | .obj [] => true
  | .obj [(k, .str _)] => k == "classification" || k == "reasoning"
  | .obj [(k1, .str _), (k2, .str _)] => k1 == "classification" && k2 == "reasoning"
  | _ => false

/-- The extracted value can be processed by lines 166-168 without a Python
exception: a dict whose `classification` field (when present) is falsy or a
string, and whose `reasoning` field (when present) is a string. -/
def goodShape : Json → Bool
  | .obj fields =>
    (match objLookup fields "classification" with
     | some v => !pyTruthy v || isStrJson v
     | none => true) &&
    (match objLookup fields "reasoning" with
     | some v => isStrJson v
     | none => true)
  | _ => false

/-- The service produced a non-error result dict. -/
def exceptIsOk : Except AnalyzeError Analysis → Bool
  | .ok _ => true
  | .error _ => false

/-- Concrete databases used to instantiate the stateful claims. -/
def sampleUser (uid : Nat) (score : Option Int) : UserRow :=
  { userid := uid, name := "asha", phone_number := "9000000001",
    password := "pw", occupation := none, aadhar_verified := 0,
    credit_score := score }

/-- A pending report row for the sample databases. -/
def sampleImage (iid : Nat) (uid : Nat) (status : Int) : ImageRow :=
  { image_id := iid, geo_location := "Sundarbans", image_data := [1, 2],
    llm_classification := "DEF", description := "cut trees",
    is_useful := status, captured_by_userid := uid }

/-- One user (id 7, `credit_score` NULL) and one pending case (id 1) that
user submitted. -/
def dbPending : DB :=
  { users := [sampleUser 7 none], images := [sampleImage 1 7 0], nextImageId := 2 }

/-- One user (id 7, `credit_score` 3) and one pending case (id 1). -/
def dbScored : DB :=
  { users := [sampleUser 7 (some 3)], images := [sampleImage 1 7 0], nextImageId := 2 }

/-- A pending case (id 1) whose `captured_by_userid` (99) matches no user. -/
def dbOrphan : DB :=
  { users := [sampleUser 7 (some 3)], images := [sampleImage 1 99 0], nextImageId := 2 }

/-- The fence-wrapped model reply of the extractor fallback-ordering claim. -/
def fencedReply : String :=
  "```json\n\x7b\"classification\":\"DEF\",\"reasoning\":\"cut trees\"\x7d\n```"

/-- The prose-wrapped model reply of the malformed-recovery claim. -/
def prosyReply : String :=
  "Sure! Here is the result: \x7b\"classification\": \"POL\", \"reasoning\": \"oil spill visible\"\x7d Hope that helps."

/-- The unstructured model reply of the last-resort-regex claim. -/
def unstructuredReply : String :=
  "classification: \"ENC\"\nreasoning: \"new construction\""

/-- A model reply classified as irrelevant, for the discard claim. -/
def irrelevantReply : String :=
  "\x7b\"classification\": \"Not_relevant\", \"reasoning\": \"beach\"\x7d"

/-! ### Helper lemmas -/

/-- Lemma: `find?` commutes with mapping a function that preserves the predicate. -/
lemma find?_map_pred {α : Type} (f : α → α) (p : α → Bool)
    (hp : ∀ a, p (f a) = p a) (l : List α) :
    (l.map f).find? p = (l.find? p).map f := by
  induction l with
  | nil => rfl
  | cons a t ih =>
    cases h : p a with
    | true =>
      rw [List.map_cons, List.find?_cons_of_pos _ (by rw [hp]; exact h),
        List.find?_cons_of_pos _ h]
      rfl
    | false =>
      rw [List.map_cons, List.find?_cons_of_neg _ (by rw [hp, h]; simp),
        List.find?_cons_of_neg _ (by rw [h]; simp), ih]

/-- Mapping a function that fixes every element of a list is the identity. -/
lemma map_eq_self_of_fix {α : Type} (f : α → α) (l : List α)
    (h : ∀ a ∈ l, f a = a) : l.map f = l := by
  induction l with
  | nil => rfl
  | cons a t ih =>
    rw [List.map_cons, h a (by simp), ih (fun x hx => h x (by simp [hx]))]

/-- The regex fallback stage always builds a partial two-field record. -/
lemma regexFields_shape (s : String) : isPartialFieldRecord (regexFields s) = true := by
  unfold regexFields
  cases hc : searchField classFieldAt s.data <;>
    cases hr : searchField reasonFieldAt s.data <;>
      simp [isPartialFieldRecord]

/-- Processing an extracted value succeeds exactly on `goodShape` values. -/
lemma analyzeParsed_ok_iff (j : Json) :
    exceptIsOk (analyzeParsed j) = goodShape j := by
  cases j with
  | null => rfl
  | bool b => rfl
  | num raw => rfl
  | str s => rfl
  | arr items => rfl
  | obj fields =>
    show exceptIsOk (analyzeParsed (.obj fields)) = goodShape (.obj fields)
    unfold analyzeParsed goodShape pyDictGet
    cases hc : objLookup fields "classification" with
    | none =>
      cases hr : objLookup fields "reasoning" with
      | none =>
        simp [hc, hr, normalizeDynamic, pyTruthy, reasoningDynamic, exceptIsOk]
      | some v =>
        cases v <;>
          simp [hc, hr, normalizeDynamic, pyTruthy, reasoningDynamic,
            exceptIsOk, isStrJson]
    | some v =>
      cases hv : pyTruthy v with
      | false =>
        have hnd : normalizeDynamic v = some "Not_relevant" := by
          unfold normalizeDynamic; rw [hv]; rfl
        cases hr : objLookup fields "reasoning" with
        | none => simp [hc, hr, hnd, hv, reasoningDynamic, exceptIsOk]
        | some w =>
          cases w <;>
            simp [hc, hr, hnd, hv, reasoningDynamic, exceptIsOk, isStrJson]
      | true =>
        cases v with
        | str s =>
          cases hr : objLookup fields "reasoning" with
          | none =>
            simp [hc, hr, normalizeDynamic, hv, reasoningDynamic, exceptIsOk,
              isStrJson]
          | some w =>
            cases w <;>
              simp [hc, hr, normalizeDynamic, hv, reasoningDynamic, exceptIsOk,
                isStrJson]
        | null => simp [hc, normalizeDynamic, hv, exceptIsOk, isStrJson]
        | bool b => simp [hc, normalizeDynamic, hv, exceptIsOk, isStrJson]
        | num raw => simp [hc, normalizeDynamic, hv, exceptIsOk, isStrJson]
        | arr items => simp [hc, normalizeDynamic, hv, exceptIsOk, isStrJson]
        | obj fs => simp [hc, normalizeDynamic, hv, exceptIsOk, isStrJson]

/-! ### Claim theorems -/

/-- Claim C5: for every string input, `_normalize_class` terminates (it is
a total Lean function) and returns one of the six canonical category
codes; and every unrecognized input - one whose canonical form matches no
exact substantive code, no sentinel spelling, and contains no curated
keyword - maps to the irrelevant sentinel, never to a fabricated
substantive category. -/
theorem normalize_total_in_taxonomy :
    (∀ s : String, _normalize_class s ∈ ALLOWED_CLASSES) ∧
    (∀ s : String, recognizedCanon (canonLabel s) = false →
      _normalize_class s = "Not_relevant") := by
  refine ⟨normalize_mem_allowed, ?_⟩
  intro s h
  unfold _normalize_class
  split
  · rfl
  · exact classifyCanon_unrecognized _ h

/-- Witness for C5 at a concrete junk input: it is unrecognized and indeed
maps to the irrelevant sentinel (and so lies in the taxonomy). -/
theorem normalize_total_in_taxonomy_witness :
    _normalize_class "q%z!!" ∈ ALLOWED_CLASSES ∧
    recognizedCanon (canonLabel "q%z!!") = false ∧
    _normalize_class "q%z!!" = "Not_relevant" :=
  ⟨normalize_total_in_taxonomy.1 "q%z!!", by decide,
   normalize_total_in_taxonomy.2 "q%z!!" (by decide)⟩

/-- Claim C9: `_normalize_class` fixes each of the six canonical codes, and
is therefore idempotent on every string. -/
theorem normalize_idempotent :
    (_normalize_class "DEF" = "DEF" ∧ _normalize_class "POL" = "POL" ∧
     _normalize_class "ENC" = "ENC" ∧ _normalize_class "ECO" = "ECO" ∧
     _normalize_class "OTH" = "OTH" ∧
     _normalize_class "Not_relevant" = "Not_relevant") ∧
    ∀ s : String, _normalize_class (_normalize_class s) = _normalize_class s := by
  refine ⟨⟨rfl, rfl, rfl, rfl, rfl, rfl⟩, ?_⟩
  intro s
  have h := normalize_mem_allowed s
  simp only [ALLOWED_CLASSES, List.mem_cons, List.not_mem_nil, or_false] at h
  rcases h with h | h | h | h | h | h <;> rw [h] <;> rfl

/-- Claim C4 counterexample: the keyword stage has no "cut" keyword, so the
standalone term "cut" maps to the irrelevant sentinel, not to DEF; and the
phrase "ecological stress" contains the DEF keyword "LOG" (ecoLOGical), so
the earlier DEF branch claims it before the ECO branch is reached. -/
theorem normalize_cut_and_ecostress_counterexample :
    _normalize_class "cut" = "Not_relevant" ∧
    ¬ _normalize_class "cut" = "DEF" ∧
    _normalize_class "ecological stress" = "DEF" ∧
    ¬ _normalize_class "ecological stress" = "ECO" := by
  refine ⟨rfl, by decide, rfl, by decide⟩

/-- Claim C4 (amended): the keyword-containment stage maps the curated
keywords to their categories in the priority order DEF, POL, ENC, ECO, OTH
(keywords DEFOR/BURN/LOG, POLLUT/WASTE/SEWAGE/OIL, ENCROACH/CONSTRUCT/
LANDFILL/AQUACULTURE, ECO/STRESS/PEST/ALGA/DIE, OTHER/UNSPECIFIED/POACH/
FIRE); the standalone term "cut" matches nothing and maps to the
irrelevant sentinel, and the phrase "ecological stress" maps to DEF via
the LOG substring of "ecological", not to ECO. -/
theorem normalize_keyword_containment_mapping :
    _normalize_class "deforestation" = "DEF" ∧
    _normalize_class "burning" = "DEF" ∧
    _normalize_class "logging" = "DEF" ∧
    _normalize_class "pollution" = "POL" ∧
    _normalize_class "waste dumping" = "POL" ∧
    _normalize_class "sewage" = "POL" ∧
    _normalize_class "oil spill" = "POL" ∧
    _normalize_class "encroachment" = "ENC" ∧
    _normalize_class "construction" = "ENC" ∧
    _normalize_class "landfill" = "ENC" ∧
    _normalize_class "aquaculture pond" = "ENC" ∧
    _normalize_class "stress" = "ECO" ∧
    _normalize_class "pest infestation" = "ECO" ∧
    _normalize_class "algal bloom" = "ECO" ∧
    _normalize_class "die-off" = "ECO" ∧
    _normalize_class "other" = "OTH" ∧
    _normalize_class "unspecified" = "OTH" ∧
    _normalize_class "poaching" = "OTH" ∧
    _normalize_class "fire" = "OTH" ∧
    _normalize_class "cut" = "Not_relevant" ∧
    _normalize_class "ecological stress" = "DEF" := by
  decide

/-- Claim C7: the extractor applies its fallback stages in order.  The
fenced reply parses after fence stripping (stage 1); the prose-wrapped
reply fails the whole-string parse and parses via the brace-scan block
(stage 2); the unstructured reply fails both structured stages and yields
both fields via the field regexes (stage 3). -/
theorem extractor_fallback_ordering :
    (jsonLoads (stripFence (pyStrip fencedReply))
        = some (Json.obj [("classification", Json.str "DEF"),
            ("reasoning", Json.str "cut trees")]) ∧
      _parse_gemini_json_text fencedReply
        = Json.obj [("classification", Json.str "DEF"),
            ("reasoning", Json.str "cut trees")]) ∧
    (jsonLoads (stripFence (pyStrip prosyReply)) = none ∧
      braceBlock (stripFence (pyStrip prosyReply))
        = some "\x7b\"classification\": \"POL\", \"reasoning\": \"oil spill visible\"\x7d" ∧
      _parse_gemini_json_text prosyReply
        = Json.obj [("classification", Json.str "POL"),
            ("reasoning", Json.str "oil spill visible")]) ∧
    (jsonLoads (stripFence (pyStrip unstructuredReply)) = none ∧
      braceBlock (stripFence (pyStrip unstructuredReply)) = none ∧
      _parse_gemini_json_text unstructuredReply
        = Json.obj [("classification", Json.str "ENC"),
            ("reasoning", Json.str "new construction")]) :=
  ⟨⟨rfl, rfl⟩, ⟨rfl, rfl, rfl⟩, ⟨rfl, rfl, rfl⟩⟩

/-- Claim C8 counterexample: the extractor can return a bare JSON scalar or
array rather than a partial classification/reasoning record, because a
whole-string `json.loads` success is returned as-is. -/
theorem extract_can_return_scalar :
    _parse_gemini_json_text "5" = Json.num "5" ∧
    isPartialFieldRecord (_parse_gemini_json_text "5") = false ∧
    _parse_gemini_json_text "[1]" = Json.arr [Json.num "1"] ∧
    isPartialFieldRecord (_parse_gemini_json_text "[1]") = false :=
  ⟨rfl, rfl, rfl, rfl⟩

/-- Claim C8 (amended): the extractor is total and never raises; its result
is either a value successfully parsed by the structured stages (which may
be any JSON value: scalar, array, or an object with arbitrary fields) or,
when both structured stages fail, a partial record with at most the two
optional string fields `classification` and `reasoning`. -/
theorem extract_total_shape (s : String) :
    isPartialFieldRecord (_parse_gemini_json_text s) = true ∨
    ∃ t : String, jsonLoads t = some (_parse_gemini_json_text s) := by
  unfold _parse_gemini_json_text extractStages
  cases h1 : jsonLoads (stripFence (pyStrip s)) with
  | some v => exact Or.inr ⟨stripFence (pyStrip s), h1⟩
  | none =>
    unfold extractStage23
    cases h2 : braceBlock (stripFence (pyStrip s)) with
    | none => exact Or.inl (regexFields_shape _)
    | some cand =>
      show isPartialFieldRecord (extractCand (stripFence (pyStrip s)) cand) = true ∨
        ∃ t : String, jsonLoads t = some (extractCand (stripFence (pyStrip s)) cand)
      unfold extractCand
      cases h3 : jsonLoads cand with
      | some v => exact Or.inr ⟨cand, h3⟩
      | none => exact Or.inl (regexFields_shape _)

/-- Claim C3 counterexample: a well-formed JSON reply of unexpected shape
(a bare array, or an object whose fields have unexpected types) makes the
service return the "Unexpected parsing error" dict, so the service does
signal an error for some malformed-but-parseable model text. -/
theorem analyze_rejects_wellformed_json_reply :
    analyze_image_with_gemini (.modelText "[1]")
      = .error (.internalProcessingError "AttributeError") ∧
    analyze_image_with_gemini
        (.modelText "\x7b\"classification\": true, \"reasoning\": \"x\"\x7d")
      = .error (.internalProcessingError "AttributeError") :=
  ⟨rfl, rfl⟩

/-- Claim C3 (amended): a transport-level failure yields
`ExternalServiceError`; a model text reply yields a non-error
category/reasoning result exactly when
the extracted value is a dict whose `classification` field (when present)
is falsy or a string and whose `reasoning` field (when present) is a
string; for any other extracted value (a scalar, an array, or truthy
non-string fields) the service signals `InternalProcessingError`. -/
theorem analyze_ok_iff_good_extraction :
    (∀ t : String,
      exceptIsOk (analyze_image_with_gemini (.modelText t))
        = goodShape (_parse_gemini_json_text t)) ∧
    (∀ d : String,
      analyze_image_with_gemini (.transportFailure d)
        = .error (.externalServiceError d)) :=
  ⟨fun t => analyzeParsed_ok_iff (_parse_gemini_json_text t), fun _ => rfl⟩

/-- Claim C2: when the report exists and its submitting user exists,
`approve_case_api` returns the success acknowledgment, sets the report's
`is_useful` status to 1 and increments the submitter's `credit_score` by
exactly 1 (a NULL score counting as 0), both in the single returned state
(the handler commits both updates in one transaction, which the state
transformer captures by construction); when the report id does not exist
it returns the 404 not-found response and leaves the state unchanged. -/
theorem approve_sets_status_and_increments_credit (db : DB) (iid : Nat) :
    (findImage db iid = none → approve_case_api iid db = (.notFound iid, db)) ∧
    (∀ row u, findImage db iid = some row →
      findUser db row.captured_by_userid = some u →
      (approve_case_api iid db).1 = ApproveResp.ok iid row.captured_by_userid ∧
      (findImage (approve_case_api iid db).2 iid).map (fun r => r.is_useful)
        = some 1 ∧
      (findUser (approve_case_api iid db).2 row.captured_by_userid).map
        (fun x => x.credit_score) = some (some (u.credit_score.getD 0 + 1))) := by
  constructor
  · intro h
    unfold approve_case_api
    rw [h]
  · intro row u hr hu
    have hr' := hr
    unfold findImage at hr'
    have hu' := hu
    unfold findUser at hu'
    have hrow : (row.image_id == iid) = true := by
      have h0 := List.find?_some hr'
      exact h0
    have huser : (u.userid == row.captured_by_userid) = true := by
      have h0 := List.find?_some hu'
      exact h0
    have hpImg : ∀ r : ImageRow,
        ((if r.image_id == iid then { r with is_useful := 1 } else r).image_id
          == iid) = (r.image_id == iid) := by
      intro r; cases hh : (r.image_id == iid) <;> simp [hh]
    have hpUsr : ∀ x : UserRow,
        ((if x.userid == row.captured_by_userid then
            { x with credit_score := some (x.credit_score.getD 0 + 1) }
          else x).userid == row.captured_by_userid)
          = (x.userid == row.captured_by_userid) := by
      intro x; cases hh : (x.userid == row.captured_by_userid) <;> simp [hh]
    unfold approve_case_api
    rw [hr]
    refine ⟨rfl, ?_, ?_⟩
    · show ((db.images.map _).find? _).map _ = some 1
      rw [find?_map_pred _ _ hpImg, hr']
      have hid : row.image_id = iid := by simpa using hrow
      simp [hid]
    · show ((db.users.map _).find? _).map _ = some (some _)
      rw [find?_map_pred _ _ hpUsr, hu']
      have huid : u.userid = row.captured_by_userid := by simpa using huser
      simp [huid]

/-- Witness for C2 at a concrete database: user 7 has `credit_score` 3 and
submitted pending case 1; approval flips the case to approved and raises
the score to 4. -/
theorem approve_sets_status_and_increments_credit_witness :
    (approve_case_api 1 dbScored).1 = ApproveResp.ok 1 7 ∧
    (findImage (approve_case_api 1 dbScored).2 1).map (fun r => r.is_useful)
      = some 1 ∧
    (findUser (approve_case_api 1 dbScored).2 7).map (fun x => x.credit_score)
      = some (some 4) :=
  (approve_sets_status_and_increments_credit dbScored 1).2
    (sampleImage 1 7 0) (sampleUser 7 (some 3)) rfl rfl

/-- Claim C1 exhibit: `approve_case_api` never checks the current status,
so approving the already-approved case 1 a second time increments the
submitter's credit again: after the first approval the score is 1, after
re-approving the same (now approved) case it is 2. -/
theorem approve_twice_awards_second_credit :
    (findImage (approve_case_api 1 dbPending).2 1).map (fun r => r.is_useful)
      = some 1 ∧
    (approve_case_api 1 dbPending).2.users.map (fun u => u.credit_score)
      = [some 1] ∧
    (approve_case_api 1 (approve_case_api 1 dbPending).2).2.users.map
      (fun u => u.credit_score) = [some 2] :=
  ⟨rfl, rfl, rfl⟩

/-- Claim C10: approving an existing report whose `captured_by_userid`
matches no user row still succeeds: the case is marked approved, the 200
acknowledgment names that user id, and the credit `UPDATE` matches zero
rows, leaving every user row unchanged. -/
theorem approve_orphan_report_succeeds (db : DB) (iid : Nat) (row : ImageRow)
    (h : findImage db iid = some row)
    (hu : findUser db row.captured_by_userid = none) :
    (approve_case_api iid db).1 = ApproveResp.ok iid row.captured_by_userid ∧
    (findImage (approve_case_api iid db).2 iid).map (fun r => r.is_useful)
      = some 1 ∧
    (approve_case_api iid db).2.users = db.users := by
  have h' := h
  unfold findImage at h'
  have hu' := hu
  unfold findUser at hu'
  have hrow : (row.image_id == iid) = true := by
    have h0 := List.find?_some h'
    exact h0
  have hpImg : ∀ r : ImageRow,
      ((if r.image_id == iid then { r with is_useful := 1 } else r).image_id
        == iid) = (r.image_id == iid) := by
    intro r; cases hh : (r.image_id == iid) <;> simp [hh]
  have hnone : ∀ x ∈ db.users, ¬ (x.userid == row.captured_by_userid) = true :=
    List.find?_eq_none.mp hu'
  unfold approve_case_api
  rw [h]
  refine ⟨rfl, ?_, ?_⟩
  · show ((db.images.map _).find? _).map _ = some 1
    rw [find?_map_pred _ _ hpImg, h']
    have hid : row.image_id = iid := by simpa using hrow
    simp [hid]
  · show db.users.map _ = db.users
    apply map_eq_self_of_fix
    intro x hx
    have hfalse : (x.userid == row.captured_by_userid) = false := by
      cases hh : (x.userid == row.captured_by_userid)
      · rfl
      · exact absurd hh (hnone x hx)
    simp [hfalse]

/-- Witness for C10: case 1 of `dbOrphan` references user 99, who does not
exist; approval still succeeds and no user row changes. -/
theorem approve_orphan_report_succeeds_witness :
    (approve_case_api 1 dbOrphan).1 = ApproveResp.ok 1 99 ∧
    (findImage (approve_case_api 1 dbOrphan).2 1).map (fun r => r.is_useful)
      = some 1 ∧
    (approve_case_api 1 dbOrphan).2.users = dbOrphan.users :=
  approve_orphan_report_succeeds dbOrphan 1 (sampleImage 1 99 0) rfl rfl

/-- Claim C6: a valid submission whose classification is the irrelevant
sentinel is acknowledged with the non-error "discarded" response and
persists nothing (the state is returned unchanged); moreover none of the
mutating routes can introduce a persisted report with category
`Not_relevant`, so the invariant that no persisted report is irrelevant is
preserved by `upload_image`, `approve_case_api` and `reject_case_api`. -/
theorem upload_discards_irrelevant_and_preserves_invariant :
    (∀ (bytes : List Nat) (uid geo : String) (reply : ExternalReply) (db : DB)
        (res : Analysis),
      uid ≠ "" → geo ≠ "" →
      analyze_image_with_gemini reply = .ok res →
      res.classification = "Not_relevant" →
      upload_image (some bytes) (some uid) (some geo) reply db
        = (.discarded res.classification res.reasoning, db)) ∧
    (∀ (img : Option (List Nat)) (uidO geoO : Option String)
        (reply : ExternalReply) (db : DB),
      (∀ r ∈ db.images, r.llm_classification ≠ "Not_relevant") →
      ∀ r ∈ (upload_image img uidO geoO reply db).2.images,
        r.llm_classification ≠ "Not_relevant") ∧
    (∀ (iid : Nat) (db : DB),
      (∀ r ∈ db.images, r.llm_classification ≠ "Not_relevant") →
      ∀ r ∈ (approve_case_api iid db).2.images,
        r.llm_classification ≠ "Not_relevant") ∧
    (∀ (iid : Nat) (db : DB),
      (∀ r ∈ db.images, r.llm_classification ≠ "Not_relevant") →
      ∀ r ∈ (reject_case_api iid db).2.images,
        r.llm_classification ≠ "Not_relevant") := by
  refine ⟨?_, ?_, ?_, ?_⟩
  · intro bytes uid geo reply db res h1 h2 hres hcls
    unfold upload_image
    rw [hres]
    simp [h1, h2, hcls]
  · intro img uidO geoO reply db hinv r hr
    cases img with
    | none => exact hinv r hr
    | some bytes =>
      cases uidO with
      | none => exact hinv r hr
      | some uid =>
        cases geoO with
        | none => exact hinv r hr
        | some geo =>
          unfold upload_image at hr
          dsimp only at hr
          by_cases hval : uid = "" ∨ geo = ""
          · rw [if_pos hval] at hr
            exact hinv r hr
          · rw [if_neg hval] at hr
            cases hres : analyze_image_with_gemini reply with
            | error e =>
              rw [hres] at hr
              exact hinv r hr
            | ok res =>
              rw [hres] at hr
              dsimp only at hr
              by_cases hcl : res.classification = "Not_relevant"
              · rw [if_pos hcl] at hr
                exact hinv r hr
              · rw [if_neg hcl] at hr
                dsimp only at hr
                rcases List.mem_append.mp hr with hmem | hmem
                · exact hinv r hmem
                · have hrow : r = uploadRow bytes uid geo res db.nextImageId := by
                    simpa using hmem
                  rw [hrow]
                  exact hcl
  · intro iid db hinv r hr
    unfold approve_case_api at hr
    cases h : findImage db iid with
    | none =>
      rw [h] at hr
      exact hinv r hr
    | some row =>
      rw [h] at hr
      dsimp only at hr
      rcases List.mem_map.mp hr with ⟨a, ha, rfl⟩
      cases hh : (a.image_id == iid) <;> simp [hh] <;> exact hinv a ha
  · intro iid db hinv r hr
    unfold reject_case_api at hr
    dsimp only at hr
    exact hinv r (List.mem_of_mem_filter hr)

/-- Witness for C6: uploading with a reply classified `Not_relevant`
against the concrete pending database changes nothing and acknowledges the
discard. -/
theorem upload_discards_irrelevant_witness :
    upload_image (some [1]) (some "7") (some "Sundarbans")
        (.modelText irrelevantReply) dbPending
      = (.discarded "Not_relevant" "beach", dbPending) :=
  upload_discards_irrelevant_and_preserves_invariant.1 [1] "7" "Sundarbans"
    (.modelText irrelevantReply) dbPending ⟨"Not_relevant", "beach"⟩
    (by decide) (by decide) rfl rfl

end DAU
